import Mathlib

/-!
Verification of the credential and history store of `src/app.py`
(ECG_recog_model).

The store is a flat-file user database: a JSON document mapping usernames to
records `{full_name, salt, pwd_hash, created_at, history}`.  We embed the
document as an association list with Python-dict semantics (first occurrence
of a key is its binding; setting an existing key replaces it in place,
setting a new key appends at the end), and each store operation from
`src/app.py` as a pure function threading the database state explicitly.
File I/O (`load_users` / `save_users`) is modelled by this state threading;
the entropy source (`secrets.token_hex`) and the clock (`datetime.now`) are
explicit parameters.
-/

namespace ECGApp

/-! ### SHA-256 (from `hashlib.sha256`, used by `hash_password`)

A byte is a `Nat` below 256; a word is a `Nat` below 2^32, with overflow
made explicit by reduction modulo 2^32. -/

/-- Reduce to a 32-bit word. -/
def w32 (x : Nat) : Nat := x % 4294967296

/-- Right rotation of a 32-bit word by `n` bits. -/
def rotr32 (n x : Nat) : Nat := w32 ((x >>> n) ||| (x <<< (32 - n)))

/-- SHA-256 small sigma 0. -/
def ssig0 (x : Nat) : Nat := (rotr32 7 x) ^^^ (rotr32 18 x) ^^^ (x >>> 3)

/-- SHA-256 small sigma 1. -/
def ssig1 (x : Nat) : Nat := (rotr32 17 x) ^^^ (rotr32 19 x) ^^^ (x >>> 10)

/-- SHA-256 big Sigma 0. -/
def bsig0 (x : Nat) : Nat := (rotr32 2 x) ^^^ (rotr32 13 x) ^^^ (rotr32 22 x)

/-- SHA-256 big Sigma 1. -/
def bsig1 (x : Nat) : Nat := (rotr32 6 x) ^^^ (rotr32 11 x) ^^^ (rotr32 25 x)

/-- SHA-256 choice function. -/
def chf (x y z : Nat) : Nat := (x &&& y) ^^^ ((x ^^^ 4294967295) &&& z)

/-- SHA-256 majority function. -/
def majf (x y z : Nat) : Nat := (x &&& y) ^^^ (x &&& z) ^^^ (y &&& z)

/-- The 64 SHA-256 round constants, in decimal. -/
def K256 : List Nat :=
  [1116352408, 1899447441, 3049323471, 3921009573, 961987163, 1508970993,
   2453635748, 2870763221, 3624381080, 310598401, 607225278, 1426881987,
   1925078388, 2162078206, 2614888103, 3248222580, 3835390401, 4022224774,
   264347078, 604807628, 770255983, 1249150122, 1555081692, 1996064986,
   2554220882, 2821834349, 2952996808, 3210313671, 3336571891, 3584528711,
   113926993, 338241895, 666307205, 773529912, 1294757372, 1396182291,
   1695183700, 1986661051, 2177026350, 2456956037, 2730485921, 2820302411,
   3259730800, 3345764771, 3516065817, 3600352804, 4094571909, 275423344,
   430227734, 506948616, 659060556, 883997877, 958139571, 1322822218,
   1537002063, 1747873779, 1955562222, 2024104815, 2227730452, 2361852424,
   2428436474, 2756734187, 3204031479, 3329325298]

/-- The SHA-256 initial hash state, in decimal. -/
def H256 : List Nat :=
  [1779033703, 3144134277, 1013904242, 2773480762,
   1359893119, 2600822924, 528734635, 1541459225]

/-- Big-endian 8-byte encoding of a 64-bit length. -/
def bytes64be (n : Nat) : List Nat :=
  [(n >>> 56) % 256, (n >>> 48) % 256, (n >>> 40) % 256, (n >>> 32) % 256,
   (n >>> 24) % 256, (n >>> 16) % 256, (n >>> 8) % 256, n % 256]

/-- SHA-256 padding: append `0x80`, zero bytes up to 56 mod 64, then the
bit length as a big-endian 64-bit integer. -/
def sha256pad (msg : List Nat) : List Nat :=
  msg ++ [0x80] ++ List.replicate ((119 - msg.length % 64) % 64) 0 ++ bytes64be (8 * msg.length)

/-- Group bytes into big-endian 32-bit words (length assumed divisible by 4). -/
def wordsOfBytes : List Nat → List Nat
  | a :: b :: c :: d :: rest => (((a * 256 + b) * 256 + c) * 256 + d) :: wordsOfBytes rest
  | _ => []

/-- Split a word list into `n` chunks of 16 words. -/
def splitChunks : Nat → List Nat → List (List Nat)
  | 0, _ => []
  | n + 1, l => l.take 16 :: splitChunks n (l.drop 16)

/-- Extend the message schedule `fuel` more steps; the accumulator holds the
schedule produced so far, newest first. -/
def extendSchedule : Nat → List Nat → List Nat
  | 0, acc => acc
  | n + 1, acc =>
    extendSchedule n
      (w32 (ssig1 (acc.getD 1 0) + acc.getD 6 0 + ssig0 (acc.getD 14 0) + acc.getD 15 0) :: acc)

/-- One SHA-256 round on the working state `[a,b,c,d,e,f,g,h]`, with `kw` the
pair of round constant and schedule word. -/
def compressStep (st : List Nat) (kw : Nat × Nat) : List Nat :=
  match st with
  | [a, b, c, d, e, f, g, h] =>
    let t1 := w32 (h + bsig1 e + chf e f g + kw.1 + kw.2)
    let t2 := w32 (bsig0 a + majf a b c)
    [w32 (t1 + t2), a, b, c, w32 (d + t1), e, f, g]
  | other => other

/-- Process one 16-word chunk into the running hash state. -/
def processChunk (h : List Nat) (chunk : List Nat) : List Nat :=
  let w := (extendSchedule 48 chunk.reverse).reverse
  let st := (K256.zip w).foldl compressStep h
  (h.zip st).map (fun p => w32 (p.1 + p.2))

/-- The lowercase hex digit for `n < 16`. -/
def hexDigit (n : Nat) : Char :=
  if n < 10 then Char.ofNat (48 + n) else Char.ofNat (87 + n)

/-- Two lowercase hex digits of a byte. -/
def byteToHex (b : Nat) : List Char := [hexDigit ((b >>> 4) % 16), hexDigit (b % 16)]

/-- Lowercase hex encoding of a byte list. -/
def hexOfBytes (bs : List Nat) : String := ⟨bs.flatMap byteToHex⟩

/-- SHA-256 of a byte list, as its final eight 32-bit words. -/
def sha256words (msg : List Nat) : List Nat :=
  let words := wordsOfBytes (sha256pad msg)
  (splitChunks (words.length / 16) words).foldl processChunk H256

/-- SHA-256 lowercase hex digest of a byte list (Python
`hashlib.sha256(...).hexdigest()`). -/
def sha256hex (msg : List Nat) : String :=
  ⟨(sha256words msg).flatMap (fun word =>
    byteToHex ((word >>> 24) % 256) ++ byteToHex ((word >>> 16) % 256) ++
    byteToHex ((word >>> 8) % 256) ++ byteToHex (word % 256))⟩

/-- UTF-8 encoding of one character (Python `str.encode("utf-8")`). -/
def utf8Char (c : Char) : List Nat :=
  let n := c.toNat
  if n < 0x80 then [n]
  else if n < 0x800 then [0xC0 ||| (n >>> 6), 0x80 ||| (n &&& 0x3F)]
  else if n < 0x10000 then
    [0xE0 ||| (n >>> 12), 0x80 ||| ((n >>> 6) &&& 0x3F), 0x80 ||| (n &&& 0x3F)]
  else
    [0xF0 ||| (n >>> 18), 0x80 ||| ((n >>> 12) &&& 0x3F),
     0x80 ||| ((n >>> 6) &&& 0x3F), 0x80 ||| (n &&& 0x3F)]

/-- UTF-8 byte encoding of a string. -/
def strBytes (s : String) : List Nat := s.data.flatMap utf8Char

/-! ### Data model (the `users.json` document) -/

/-- One history entry, `{filename, filepath, timestamp, label, confidence}`
(`src/app.py` lines 248-254).  Timestamps are the ISO strings produced by
`datetime.now().isoformat()`; `confidence` is the rounded classifier
confidence, modelled as a rational. -/
structure HistoryEntry where
  filename : String
  filepath : String
  timestamp : String
  label : String
  confidence : ℚ
deriving DecidableEq

/-- One user record, `{full_name, salt, pwd_hash, created_at, history}`
(`src/app.py` lines 51-57). -/
structure UserRecord where
  full_name : String
  salt : String
  pwd_hash : String
  created_at : String
  history : List HistoryEntry
deriving DecidableEq

/-- The `data["users"]` mapping, as an association list with Python-dict
semantics: the binding of a key is its first occurrence. -/
abbrev UserDB := List (String × UserRecord)

/-- Python `d.get(k)` / `k in d`: the first binding of `k`, if any. -/
def dict_get : UserDB → String → Option UserRecord
  | [], _ => none
  | kv :: rest, k => if kv.1 = k then some kv.2 else dict_get rest k

/-- Python `d[k] = v`: replace the first binding of `k` in place, or append a
new binding at the end (dict insertion-order semantics). -/
def dict_set : UserDB → String → UserRecord → UserDB
  | [], k, v => [(k, v)]
  | kv :: rest, k, v => if kv.1 = k then (k, v) :: rest else kv :: dict_set rest k v

/-! ### Store operations (`src/app.py` lines 41-81)

Each operation receives the current document and returns the document it
persists (`load_users` / `save_users` become state threading).  `create_user`
additionally receives the process entropy source `rand` — `rand n` is the
list of `n` fresh bytes `secrets.token_hex(n)` draws — and the clock value
`now` (`datetime.now().isoformat()`). -/

/-- Python `secrets.token_hex(n)`: the lowercase hex encoding of `n` fresh
random bytes drawn from the entropy source. -/
def token_hex (rand : Nat → List Nat) (n : Nat) : String := hexOfBytes (rand n)

/-- `hash_password(password, salt) = SHA256(salt + password).hexdigest()`
(`src/app.py` lines 41-43). -/
def hash_password (password : String) (salt : String) : String :=
  sha256hex (strBytes (salt ++ password))

/-- `create_user(username, password, full_name)` (`src/app.py` lines 45-61):
fails if the username is taken, otherwise stores a record with a fresh salt
(`secrets.token_hex(8)`), the salted password hash, the creation time and an
empty history.  Returns the `(ok, message)` pair and the resulting
document. -/
def create_user (rand : Nat → List Nat) (now : String) (db : UserDB)
    (username password : String) (full_name : String := "") :
    (Bool × String) × UserDB :=
  if (dict_get db username).isSome then
    ((false, "Username already exists."), db)
  else
    let salt := token_hex rand 8
    let pwd_hash := hash_password password salt
    ((true, "User created."),
      dict_set db username
        { full_name := full_name, salt := salt, pwd_hash := pwd_hash,
          created_at := now, history := [] })

/-- `verify_user(username, password)` (`src/app.py` lines 63-73): `(ok,
message)`, reading the document without modifying it. -/
def verify_user (db : UserDB) (username password : String) : Bool × String :=
  match dict_get db username with
  | none => (false, "Username not found.")
  | some user =>
    if hash_password password user.salt = user.pwd_hash then
      (true, "Login successful.")
    else
      (false, "Incorrect password.")

/-- `add_history_for_user(username, item)` (`src/app.py` lines 75-81):
if the username is present, insert `item` at index 0 of its history, keep
only the first 50 entries, and persist; otherwise do nothing. -/
def add_history_for_user (db : UserDB) (username : String) (item : HistoryEntry) :
    UserDB :=
  match dict_get db username with
  | none => db
  | some user =>
    dict_set db username { user with history := (item :: user.history).take 50 }

/-! ### Signup form logic (`src/app.py` lines 172-192) -/

/-- Python `str.isspace()` on the ASCII whitespace characters Python's
`str.strip()` removes: space, tab, newline, carriage return, vertical tab,
form feed. -/
def py_isspace (c : Char) : Bool :=
  c = ' ' || c = '\t' || c = '\n' || c = '\x0d' || c = '\x0b' || c = '\x0c'

/-- Python `str.strip()`: drop whitespace from both ends. -/
def py_strip (s : String) : String :=
  ⟨((s.data.dropWhile py_isspace).reverse.dropWhile py_isspace).reverse⟩

/-- Python `" " in s`: for the one-character needle this is exactly "some
character of `s` is a space". -/
def contains_space (s : String) : Bool := s.data.any (fun c => c = ' ')

/-- What `show_signup` displays after the submit branch: `st.warning` for a
local validation failure, `st.success` when the account is created,
`st.error` for a `create_user` failure. -/
inductive SignupOutcome where
  | warning (msg : String)
  | success (msg : String)
  | error (msg : String)
deriving DecidableEq

/-- Whether a signup outcome is a local validation failure (`st.warning`). -/
def isWarning : SignupOutcome → Bool
  | .warning _ => true
  | .success _ => false
  | .error _ => false

/-- The submitted branch of `show_signup` (`src/app.py` lines 180-192):
validate locally (both fields non-empty, no space in the username, matching
passwords), then delegate to `create_user` on the stripped username and full
name.  Returns the displayed outcome and the resulting document. -/
def show_signup (rand : Nat → List Nat) (now : String) (db : UserDB)
    (new_username full_name new_password confirm_password : String) :
    SignupOutcome × UserDB :=
  if new_username = "" || new_password = "" then
    (.warning "Please enter a username and password.", db)
  else if contains_space new_username then
    (.warning "Username cannot contain spaces.", db)
  else if new_password ≠ confirm_password then
    (.warning "Passwords do not match.", db)
  else
    let res := create_user rand now db (py_strip new_username) new_password
      (py_strip full_name)
    if res.1.1 then (.success "Account created. Please log in below.", res.2)
    else (.error res.1.2, res.2)

/-! ### Classification and the upload flow (`src/app.py` lines 159-169 and
243-255)

The classifier is the spec's opaque external capability: when the model
loaded, `classify_images` runs the TensorFlow pipeline, modelled here as
applying the loaded model — an arbitrary function from the image path to a
`(label, confidence)` pair; when `model is None` it returns the sentinel
`("ModelNotLoaded", 0.0)` (`src/app.py` lines 160-161, translated
exactly). -/

/-- `classify_images(image_path)` (`src/app.py` lines 159-169). -/
def classify_images (model : Option (String → String × ℚ)) (image_path : String) :
    String × ℚ :=
  match model with
  | none => ("ModelNotLoaded", 0)
  | some m => m image_path

/-- Python `round(x, 2)` uses round-half-to-even. -/
def round_half_even (q : ℚ) : ℤ :=
  if Int.fract q < 1 / 2 then ⌊q⌋
  else if 1 / 2 < Int.fract q then ⌊q⌋ + 1
  else if ⌊q⌋ % 2 = 0 then ⌊q⌋ else ⌊q⌋ + 1

/-- Python `round(x, 2)`. -/
def round2 (q : ℚ) : ℚ := (round_half_even (q * 100) : ℚ) / 100

/-- The analysis step of `user_upload_ui` after the artifact is written
(`src/app.py` lines 243-255): classify the stored file, build the history
item with the rounded confidence, and append it to the user's history.
Returns the item and the resulting document. -/
def user_upload_ui (model : Option (String → String × ℚ)) (db : UserDB)
    (username safe_name file_path now : String) : HistoryEntry × UserDB :=
  let lc := classify_images model file_path
  let history_item : HistoryEntry :=
    { filename := safe_name, filepath := file_path, timestamp := now,
      label := lc.1, confidence := round2 lc.2 }
  (history_item, add_history_for_user db username history_item)

/-! ### Concrete data for witnesses -/

/-- A deterministic stand-in for the entropy source in concrete runs. -/
def demoRand (n : Nat) : List Nat := List.range n

/-- A concrete creation time. -/
def demoNow : String := "2025-01-01T00:00:00"

/-- A database holding the single user `alice` as `create_user` builds it. -/
def demoDB : UserDB := (create_user demoRand demoNow [] "alice" "p@ss1" "Alice A").2

/-- The record `create_user` stores for `alice` in `demoDB`. -/
def demoRec : UserRecord :=
  { full_name := "Alice A", salt := token_hex demoRand 8,
    pwd_hash := hash_password "p@ss1" (token_hex demoRand 8),
    created_at := demoNow, history := [] }

/-- A concrete history entry. -/
def demoEntry : HistoryEntry :=
  { filename := "ECG_1.png", filepath := "upload/alice/ECG_1.png",
    timestamp := "2025-01-02T00:00:00", label := "Normal ECG", confidence := 99 }

/-- A second concrete history entry. -/
def demoEntry2 : HistoryEntry :=
  { filename := "ECG_2.png", filepath := "upload/alice/ECG_2.png",
    timestamp := "2025-01-03T00:00:00", label := "Abnormal Heartbeat ECG",
    confidence := 51 }

/-! ### Dictionary lemmas -/

/-- Reading back the key just set yields the value just stored. -/
theorem dict_get_set_self (db : UserDB) (k : String) (v : UserRecord) :
    dict_get (dict_set db k v) k = some v := by
  induction db with
  | nil => simp [dict_set, dict_get]
  | cons kv rest ih =>
    by_cases h : kv.1 = k
    · simp [dict_set, dict_get, h]
    · simp [dict_set, dict_get, h, ih]

/-- Setting one key leaves every other key's binding unchanged. -/
theorem dict_get_set_ne (db : UserDB) (k : String) (v : UserRecord)
    (k' : String) (h : k' ≠ k) :
    dict_get (dict_set db k v) k' = dict_get db k' := by
  induction db with
  | nil => simp [dict_set, dict_get, Ne.symm h]
  | cons kv rest ih =>
    by_cases hk : kv.1 = k
    · simp [dict_set, dict_get, hk, Ne.symm h]
    · simp [dict_set, dict_get, hk, ih]

/-! ### Sanity checks of the hash embedding -/

/-- Known-answer test: the embedded SHA-256 agrees with the standard digest
of `"abc"`. -/
theorem sha256hex_abc :
    sha256hex (strBytes "abc") =
      "ba7816bf8f01cfea414140de5dae2223b00361a396177a9cb410ff61f20015ad" := by
  decide

/-- The hex encoding of a byte list has two characters per byte. -/
theorem hexOfBytes_length (bs : List Nat) :
    (hexOfBytes bs).length = 2 * bs.length := by
  induction bs with
  | nil => rfl
  | cons b rest ih =>
    simp [hexOfBytes, byteToHex, String.length] at ih ⊢
    omega

/-- Reading back the user just appended to: the stored history is
`(item :: old).take 50`. -/
theorem add_history_get_self (db : UserDB) (username : String)
    (item : HistoryEntry) (u : UserRecord)
    (h : dict_get db username = some u) :
    dict_get (add_history_for_user db username item) username
      = some { u with history := (item :: u.history).take 50 } := by
  simp [add_history_for_user, h, dict_get_set_self]

/-! ### Claim theorems -/

/-- C1: for every username not already a key of the user database and every
password, `create_user(username, password, fullName)` succeeds, the stored
`pwd_hash` equals `hash_password(password, stored salt)`, and a subsequent
`verify_user(username, password)` on the resulting database succeeds. -/
theorem create_then_verify (rand : Nat → List Nat) (now : String) (db : UserDB)
    (username password full_name : String)
    (h : dict_get db username = none) :
    (create_user rand now db username password full_name).1 = (true, "User created.") ∧
    (∃ r, dict_get (create_user rand now db username password full_name).2 username
        = some r ∧ r.pwd_hash = hash_password password r.salt) ∧
    verify_user (create_user rand now db username password full_name).2
      username password = (true, "Login successful.") := by
  have hs : (dict_get db username).isSome = false := by rw [h]; rfl
  have h2 : (create_user rand now db username password full_name).2
      = dict_set db username
          { full_name := full_name, salt := token_hex rand 8,
            pwd_hash := hash_password password (token_hex rand 8),
            created_at := now, history := [] } := by
    simp [create_user, hs]
  refine ⟨by simp [create_user, hs], ⟨_, by rw [h2]; exact dict_get_set_self .., rfl⟩, ?_⟩
  rw [h2]
  simp [verify_user, dict_get_set_self]

/-- C1 witness: creating `alice` in the empty database and verifying the same
credentials succeeds. -/
theorem create_then_verify_witness :
    verify_user (create_user demoRand demoNow [] "alice" "p@ss1" "Alice A").2
      "alice" "p@ss1" = (true, "Login successful.") :=
  (create_then_verify demoRand demoNow [] "alice" "p@ss1" "Alice A" rfl).2.2

/-- C2: for every username that is a key of the database,
`add_history_for_user` inserts the entry at index 0 of that user's history
and truncates to the first 50 entries: the new history is
`(entry :: old).take 50`, it never has more than 50 entries, appending E1
then E2 puts E2 at index 0 and E1 at index 1, and appending to a history of
50 entries keeps 50 entries, dropping the oldest. -/
theorem add_history_newest_first_capped (db : UserDB) (username : String)
    (item : HistoryEntry) (u : UserRecord)
    (h : dict_get db username = some u) :
    (∃ u', dict_get (add_history_for_user db username item) username = some u' ∧
       u'.history = (item :: u.history).take 50 ∧
       u'.history.length ≤ 50 ∧
       u'.history.head? = some item) ∧
    (∀ e, ∃ u'', dict_get
        (add_history_for_user (add_history_for_user db username item) username e)
        username = some u'' ∧
       u''.history.head? = some e ∧ u''.history.get? 1 = some item) ∧
    (u.history.length = 50 →
      ∃ u', dict_get (add_history_for_user db username item) username = some u' ∧
        u'.history.length = 50 ∧ u'.history = item :: u.history.take 49) := by
  have e1 : ∀ (a : HistoryEntry) (l : List HistoryEntry),
      (a :: l).take 50 = a :: l.take 49 := fun a l => rfl
  have e2 : ∀ (a : HistoryEntry) (l : List HistoryEntry),
      (a :: l).take 49 = a :: l.take 48 := fun a l => rfl
  have key := add_history_get_self db username item u h
  refine ⟨⟨_, key, rfl, ?_, ?_⟩, ?_, ?_⟩
  · simp [List.length_take]
  · rw [e1]; rfl
  · intro e
    have key2 := add_history_get_self _ username e _ key
    refine ⟨_, key2, ?_, ?_⟩
    · show ((e :: (item :: u.history).take 50).take 50).head? = some e
      rw [e1]; rfl
    · show ((e :: (item :: u.history).take 50).take 50).get? 1 = some item
      rw [e1, e1, e2]; rfl
  · intro hlen
    refine ⟨_, key, ?_, ?_⟩
    · simp [List.length_take, hlen]
    · rw [e1]

/-- C2 witness: after appending `demoEntry` then `demoEntry2` for `alice`,
the stored history has `demoEntry2` at index 0 and `demoEntry` at index 1. -/
theorem add_history_newest_first_capped_witness :
    (dict_get (add_history_for_user (add_history_for_user demoDB "alice" demoEntry)
        "alice" demoEntry2) "alice").map
      (fun r => (r.history.head?, r.history.get? 1))
      = some (some demoEntry2, some demoEntry) := by
  obtain ⟨u'', hget, hhead, hsnd⟩ :=
    (add_history_newest_first_capped demoDB "alice" demoEntry demoRec rfl).2.1 demoEntry2
  rw [hget]
  show some (u''.history.head?, u''.history.get? 1)
    = some (some demoEntry2, some demoEntry)
  rw [hhead, hsnd]

/-- C3: `verify_user(username, password)` fails with the not-found message
when the username is not a key of the database, fails with the
incorrect-password message when the username is a key but
`hash_password(password, stored salt)` differs from the stored `pwd_hash`,
and succeeds otherwise. -/
theorem verify_user_cases (db : UserDB) (username password : String) :
    (dict_get db username = none →
      verify_user db username password = (false, "Username not found.")) ∧
    (∀ u, dict_get db username = some u →
      hash_password password u.salt ≠ u.pwd_hash →
      verify_user db username password = (false, "Incorrect password.")) ∧
    (∀ u, dict_get db username = some u →
      hash_password password u.salt = u.pwd_hash →
      verify_user db username password = (true, "Login successful.")) :=
  ⟨fun h => by simp [verify_user, h],
   fun u h hne => by simp [verify_user, h, hne],
   fun u h he => by simp [verify_user, h, he]⟩

/-- C3 witness: on `demoDB`, the unknown user `bob` gets the not-found
message, `alice` with the wrong password gets the incorrect-password
message, and `alice` with the right password logs in. -/
theorem verify_user_cases_witness :
    verify_user demoDB "bob" "x" = (false, "Username not found.") ∧
    verify_user demoDB "alice" "wrong" = (false, "Incorrect password.") ∧
    verify_user demoDB "alice" "p@ss1" = (true, "Login successful.") :=
  ⟨(verify_user_cases demoDB "bob" "x").1 rfl,
   (verify_user_cases demoDB "alice" "wrong").2.1 demoRec rfl (by decide),
   (verify_user_cases demoDB "alice" "p@ss1").2.2 demoRec rfl rfl⟩

/-- C4: for every username already present, a second `create_user` call with
that username fails with the already-exists error and returns the database
unchanged — in particular the original record is untouched. -/
theorem create_user_duplicate (rand : Nat → List Nat) (now : String)
    (db : UserDB) (username password full_name : String)
    (h : (dict_get db username).isSome = true) :
    create_user rand now db username password full_name
      = ((false, "Username already exists."), db) := by
  simp [create_user, h]

/-- C4 witness: re-creating `alice` over `demoDB` fails and leaves the
database unchanged. -/
theorem create_user_duplicate_witness :
    create_user demoRand demoNow demoDB "alice" "newpw" "X"
      = ((false, "Username already exists."), demoDB) :=
  create_user_duplicate demoRand demoNow demoDB "alice" "newpw" "X" rfl

/-- C8: for every username that is not a key of the database,
`add_history_for_user` raises no error and returns the database unchanged. -/
theorem add_history_unknown_noop (db : UserDB) (username : String)
    (item : HistoryEntry) (h : dict_get db username = none) :
    add_history_for_user db username item = db := by
  simp [add_history_for_user, h]

/-- C8 witness: appending history for the absent user `bob` leaves `demoDB`
unchanged. -/
theorem add_history_unknown_noop_witness :
    add_history_for_user demoDB "bob" demoEntry = demoDB :=
  add_history_unknown_noop demoDB "bob" demoEntry rfl

/-- C9: for every username present in the database, `add_history_for_user`
modifies only that user's history: every other key's binding is unchanged,
and the target record keeps its `full_name`, `salt`, `pwd_hash` and
`created_at`. -/
theorem add_history_frame (db : UserDB) (username : String)
    (item : HistoryEntry) (u : UserRecord)
    (h : dict_get db username = some u) :
    (∀ k, k ≠ username →
      dict_get (add_history_for_user db username item) k = dict_get db k) ∧
    ∃ u', dict_get (add_history_for_user db username item) username = some u' ∧
      u'.full_name = u.full_name ∧ u'.salt = u.salt ∧ u'.pwd_hash = u.pwd_hash ∧
      u'.created_at = u.created_at := by
  constructor
  · intro k hk
    simp [add_history_for_user, h, dict_get_set_ne _ _ _ _ hk]
  · refine ⟨{ u with history := (item :: u.history).take 50 }, ?_, rfl, rfl, rfl, rfl⟩
    simp [add_history_for_user, h, dict_get_set_self]

/-- C9 witness: appending history for `alice` leaves the binding of `bob`
unchanged. -/
theorem add_history_frame_witness :
    dict_get (add_history_for_user demoDB "alice" demoEntry) "bob"
      = dict_get demoDB "bob" :=
  (add_history_frame demoDB "alice" demoEntry demoRec rfl).1 "bob" (by decide)

/-- C10: `create_user` itself performs no input validation: for every
username not already a key — including the empty string and strings
containing whitespace — and every password, including the empty string, it
succeeds and stores a record. -/
theorem create_user_no_validation (rand : Nat → List Nat) (now : String)
    (db : UserDB) (username password full_name : String)
    (h : dict_get db username = none) :
    (create_user rand now db username password full_name).1 = (true, "User created.") ∧
    ∃ r, dict_get (create_user rand now db username password full_name).2 username
      = some r := by
  have hs : (dict_get db username).isSome = false := by rw [h]; rfl
  have h2 : (create_user rand now db username password full_name).2
      = dict_set db username
          { full_name := full_name, salt := token_hex rand 8,
            pwd_hash := hash_password password (token_hex rand 8),
            created_at := now, history := [] } := by
    simp [create_user, hs]
  exact ⟨by simp [create_user, hs], ⟨_, by rw [h2]; exact dict_get_set_self ..⟩⟩

/-- C10 witness: a whitespace-carrying username and an empty username, each
with the empty password, are both accepted by `create_user`. -/
theorem create_user_no_validation_witness :
    (create_user demoRand demoNow [] "a b" "" "").1 = (true, "User created.") ∧
    (create_user demoRand demoNow [] "" "" "").1 = (true, "User created.") :=
  ⟨(create_user_no_validation demoRand demoNow [] "a b" "" "" rfl).1,
   (create_user_no_validation demoRand demoNow [] "" "" "" rfl).1⟩

/-- C5 counterexample: the claim says signup rejects every username
containing whitespace before touching the store.  The code only rejects the
space character: the username `"a\tb"` contains a tab, yet this signup
passes validation, reaches `create_user` and creates a record. -/
theorem signup_whitespace_counterexample :
    (show_signup demoRand demoNow [] "a\tb" "" "pw" "pw").1
      = SignupOutcome.success "Account created. Please log in below." ∧
    dict_get (show_signup demoRand demoNow [] "a\tb" "" "pw" "pw").2 "a\tb" ≠ none := by
  constructor
  · decide
  · decide

/-- C5 amended: `show_signup` fails with a validation warning, leaving the
store untouched, exactly when the username is empty, the password is empty,
the password differs from its confirmation, or the username contains a
space character `' '` — not arbitrary whitespace: a tab or newline in the
username passes validation and reaches `create_user`. -/
theorem signup_validation_exact (rand : Nat → List Nat) (now : String)
    (db : UserDB) (new_username full_name new_password confirm_password : String) :
    (isWarning (show_signup rand now db new_username full_name new_password
        confirm_password).1 = true ↔
      (new_username = "" ∨ new_password = "" ∨ contains_space new_username = true ∨
        new_password ≠ confirm_password)) ∧
    ((new_username = "" ∨ new_password = "" ∨ contains_space new_username = true ∨
        new_password ≠ confirm_password) →
      (show_signup rand now db new_username full_name new_password
        confirm_password).2 = db) := by
  simp only [show_signup]
  split_ifs with h1 h2 h3 h4
  · have h1' : new_username = "" ∨ new_password = "" := by simpa using h1
    exact ⟨⟨fun _ => h1'.elim Or.inl (fun hp => Or.inr (Or.inl hp)), fun _ => rfl⟩,
      fun _ => rfl⟩
  · exact ⟨⟨fun _ => Or.inr (Or.inr (Or.inl h2)), fun _ => rfl⟩, fun _ => rfl⟩
  · exact ⟨⟨fun _ => Or.inr (Or.inr (Or.inr h3)), fun _ => rfl⟩, fun _ => rfl⟩
  · have hno : ¬(new_username = "" ∨ new_password = "" ∨
        contains_space new_username = true ∨ new_password ≠ confirm_password) := by
      simp only [Bool.or_eq_true, decide_eq_true_eq, not_or] at h1
      simp only [not_or]
      exact ⟨h1.1, h1.2, h2, h3⟩
    exact ⟨⟨fun hw => absurd hw (by simp [isWarning]), fun hc => absurd hc hno⟩,
      fun hc => absurd hc hno⟩
  · have hno : ¬(new_username = "" ∨ new_password = "" ∨
        contains_space new_username = true ∨ new_password ≠ confirm_password) := by
      simp only [Bool.or_eq_true, decide_eq_true_eq, not_or] at h1
      simp only [not_or]
      exact ⟨h1.1, h1.2, h2, h3⟩
    exact ⟨⟨fun hw => absurd hw (by simp [isWarning]), fun hc => absurd hc hno⟩,
      fun hc => absurd hc hno⟩

/-- C5 amended witness: the spec's concrete scenario
`signup("al ice", "pw", "pw", "")` is rejected by validation (space in the
username) and the empty store stays empty. -/
theorem signup_validation_exact_witness :
    isWarning (show_signup demoRand demoNow [] "al ice" "" "pw" "pw").1 = true ∧
    (show_signup demoRand demoNow [] "al ice" "" "pw" "pw").2 = [] :=
  ⟨(signup_validation_exact demoRand demoNow [] "al ice" "" "pw" "pw").1.mpr
      (Or.inr (Or.inr (Or.inl (by decide)))),
   (signup_validation_exact demoRand demoNow [] "al ice" "" "pw" "pw").2
      (Or.inr (Or.inr (Or.inl (by decide))))⟩

/-- C6 counterexample: the claim says the stored salt carries at least 16
bytes of underlying entropy, which hex-encoded would be at least 32
characters.  The code calls `secrets.token_hex(8)`: in the concrete run
below the stored salt is the hex encoding of the 8 drawn bytes — 16 hex
characters, 8 bytes of entropy. -/
theorem salt_entropy_counterexample :
    (dict_get demoDB "alice").map (fun r => r.salt) = some "0001020304050607" ∧
    "0001020304050607".length = 16 ∧ ¬(32 ≤ "0001020304050607".length) := by
  refine ⟨by decide, by decide, by decide⟩

/-- C6 amended: for every successful `create_user` call, the stored salt is
the lowercase hex encoding of the 8 random bytes drawn from the entropy
source at creation — 16 hex characters, hence 8 bytes of underlying
entropy, not at least 16 — generated once and never changed by subsequent
history appends. -/
theorem salt_generation (rand : Nat → List Nat) (now : String) (db : UserDB)
    (username password full_name : String)
    (hlen : (rand 8).length = 8) (h : dict_get db username = none) :
    ∃ r, dict_get (create_user rand now db username password full_name).2 username
        = some r ∧
      r.salt = hexOfBytes (rand 8) ∧
      r.salt.length = 16 ∧
      ∀ item, (dict_get (add_history_for_user
          (create_user rand now db username password full_name).2 username item)
          username).map (fun x => x.salt) = some r.salt := by
  have hs : (dict_get db username).isSome = false := by rw [h]; rfl
  have h2 : (create_user rand now db username password full_name).2
      = dict_set db username
          { full_name := full_name, salt := token_hex rand 8,
            pwd_hash := hash_password password (token_hex rand 8),
            created_at := now, history := [] } := by
    simp [create_user, hs]
  have hget : dict_get (create_user rand now db username password full_name).2 username
      = some { full_name := full_name, salt := token_hex rand 8,
               pwd_hash := hash_password password (token_hex rand 8),
               created_at := now, history := [] } := by
    rw [h2]; exact dict_get_set_self ..
  refine ⟨_, hget, rfl, ?_, ?_⟩
  · show (hexOfBytes (rand 8)).length = 16
    rw [hexOfBytes_length, hlen]
  · intro item
    rw [add_history_get_self _ username item _ hget]
    rfl

/-- C6 amended witness: creating `carol` over the empty store with the
deterministic byte source stores exactly the 16-character hex encoding of
the 8 drawn bytes. -/
theorem salt_generation_witness :
    (dict_get (create_user demoRand demoNow [] "carol" "pw" "").2 "carol").map
      (fun r => r.salt) = some (hexOfBytes (demoRand 8)) := by
  obtain ⟨r, hget, hsalt, -, -⟩ :=
    salt_generation demoRand demoNow [] "carol" "pw" "" rfl rfl
  rw [hget]
  show some r.salt = some (hexOfBytes (demoRand 8))
  rw [hsalt]

/-- C7: when the classifier is unavailable (the model failed to load), the
analysis step of `user_upload_ui` does not fail: the returned history entry
has the sentinel label `"ModelNotLoaded"` and confidence `0.0`, and that
entry is still inserted at the front of the user's history. -/
theorem classifier_unavailable_degrades (db : UserDB)
    (username safe_name file_path now : String) (u : UserRecord)
    (h : dict_get db username = some u) :
    (user_upload_ui none db username safe_name file_path now).1.label
      = "ModelNotLoaded" ∧
    (user_upload_ui none db username safe_name file_path now).1.confidence = 0 ∧
    ∃ u', dict_get (user_upload_ui none db username safe_name file_path now).2
        username = some u' ∧
      u'.history.head? = some (user_upload_ui none db username safe_name
        file_path now).1 := by
  have hr : round2 0 = 0 := by
    have hz : round_half_even 0 = 0 := by
      rw [round_half_even]
      norm_num
    have : (0 : ℚ) * 100 = 0 := by norm_num
    rw [round2, this, hz]
    norm_num
  have key := add_history_get_self db username
    { filename := safe_name, filepath := file_path, timestamp := now,
      label := "ModelNotLoaded", confidence := round2 0 } u h
  exact ⟨rfl, hr, ⟨_, key, rfl⟩⟩

/-- C7 witness: with the model unavailable, analyzing an upload for `alice`
yields the sentinel label and zero confidence. -/
theorem classifier_unavailable_degrades_witness :
    (user_upload_ui none demoDB "alice" "ECG_x.png" "upload/alice/ECG_x.png"
      "2025-01-04T00:00:00").1.label = "ModelNotLoaded" ∧
    (user_upload_ui none demoDB "alice" "ECG_x.png" "upload/alice/ECG_x.png"
      "2025-01-04T00:00:00").1.confidence = 0 :=
  ⟨(classifier_unavailable_degrades demoDB "alice" "ECG_x.png"
      "upload/alice/ECG_x.png" "2025-01-04T00:00:00" demoRec rfl).1,
   (classifier_unavailable_degrades demoDB "alice" "ECG_x.png"
      "upload/alice/ECG_x.png" "2025-01-04T00:00:00" demoRec rfl).2.1⟩

end ECGApp
